import Mathlib

/-!
Shallow embedding of the iNode Bluetooth MSD decoder
(h5.bluetooth.hci.inode, lib/index.js, plus the older duplicated module kept
in the repository), together with theorems settling the frozen claims about
the decoder.

Modelling conventions:
* A Node.js Buffer is a list of natural numbers; a well-formed buffer holds
  bytes < 256.  Out-of-range reads (undefined in JavaScript, or a thrown
  RangeError for the multi-byte read helpers) are totalized to 0; every
  behavior the claims are about only involves in-range reads.
* JavaScript numbers are modelled as exact rationals (ℚ) or integers; the
  decimal literals of the source (1.2, 0.0625, 175.72, ...) are exact
  rationals here.
* Impure values (new Date(), yesterday's weekday) are modelled by dedicated
  constructors so that they stay opaque data.
* Mutation of the output record (msd.x = ...) becomes functional record
  update; each decode primitive takes the record and returns the updated one.
-/

namespace INode

/-- Bytes of a Node.js Buffer. -/
abbrev Buffer := List Nat

/-- Node Buffer.readUInt16LE (little endian, totalized out of range). -/
def readUInt16LE (buffer : Buffer) (i : Nat) : Nat :=
  buffer.getD i 0 + 256 * buffer.getD (i + 1) 0

/-- Node Buffer.readUInt32LE (little endian, totalized out of range). -/
def readUInt32LE (buffer : Buffer) (i : Nat) : Nat :=
  buffer.getD i 0 + 256 * buffer.getD (i + 1) 0
    + 65536 * buffer.getD (i + 2) 0 + 16777216 * buffer.getD (i + 3) 0

/-- Node Buffer.readInt8 (signed byte, totalized out of range). -/
def readInt8 (buffer : Buffer) (i : Nat) : Int :=
  let v := buffer.getD i 0
  if 128 ≤ v then (v : Int) - 256 else (v : Int)

/-- JavaScript Math.round: round half toward positive infinity. -/
def jsRound (q : ℚ) : ℤ := Int.floor (q + 1 / 2)

/-- JavaScript ToInt32, applied by the 32-bit << and | operators. -/
def toInt32 (n : Nat) : Int :=
  let m := n % 4294967296
  if 2147483648 ≤ m then (m : Int) - 4294967296 else (m : Int)

/- The DeviceModel enumeration (lib/index.js lines 14-32). -/

def DeviceModel.Beacon : Nat := 0x80
def DeviceModel.EnergyMeter : Nat := 0x82
def DeviceModel.ControlId : Nat := 0x88
def DeviceModel.Nav : Nat := 0x89
def DeviceModel.CareSensor1 : Nat := 0x91
def DeviceModel.CareSensor2 : Nat := 0x92
def DeviceModel.CareSensor3 : Nat := 0x93
def DeviceModel.CareSensor4 : Nat := 0x94
def DeviceModel.CareSensor5 : Nat := 0x95
def DeviceModel.CareSensor6 : Nat := 0x96
def DeviceModel.CareSensorT : Nat := 0x9A
def DeviceModel.CareSensorHT : Nat := 0x9B
def DeviceModel.ControlPoint : Nat := 0xB2
def DeviceModel.CareRelay : Nat := 0xB3
def DeviceModel.TransceiverUart : Nat := 0xB5
def DeviceModel.TransceiverUsb : Nat := 0xB6
def DeviceModel.Gsm : Nat := 0xB7

/-- External constant EirDataType.ManufacturerSpecificData from the
h5.bluetooth.hci package (out of scope for this repository); its value is
0xFF in the Bluetooth specification and is irrelevant to every claim. -/
def eirManufacturerSpecificData : Nat := 0xFF

/-- External constant EirDataType.LocalNameComplete (h5.bluetooth.hci). -/
def eirLocalNameComplete : Nat := 0x09

/-- External constant AdvertisingReportEventType.AdvInd (h5.bluetooth.hci). -/
def advertisingReportEventTypeAdvInd : Nat := 0

/-- External constant AdvertisingReportAddressType.Public
(h5.bluetooth.hci). -/
def advertisingReportAddressTypePublic : Nat := 0

/-- A JavaScript Date value as produced by this module: either
new Date(seconds * 1000) from decodeTime or the impure new Date(). -/
inductive JsTime where
  | epochSeconds (s : Int)
  | now
  deriving Repr, DecidableEq

/-- The weekDay field of the energy meter: either bits 15..13 of the week
data word, or the impure expression
new Date(Date.now() - 24 * 3600 * 1000).getDay(). -/
inductive JsWeekDay where
  | ofBits (n : Nat)
  | yesterdayOfNow
  deriving Repr, DecidableEq

/-- The msd.position object written by decodeMotionSensor. -/
structure MotionPosition where
  motion : Bool
  x : Int
  y : Int
  z : Int
  deriving Repr, DecidableEq

/-- The ten extended alarm flags (bits 0-9 of the alarms word). -/
structure ExtAlarms where
  moveAccelerometer : Bool
  levelAccelerometer : Bool
  levelTemperature : Bool
  levelHumidity : Bool
  contactChange : Bool
  moveStopped : Bool
  moveGTimer : Bool
  levelAccelerometerChange : Bool
  levelMagnetChange : Bool
  levelMagnetTimer : Bool
  deriving Repr, DecidableEq

/-- The msd.alarms object of the newer module: lowBattery is always present;
the ten extended flags are added only when an extended offset is supplied. -/
structure Alarms where
  lowBattery : Bool
  extended : Option ExtAlarms := none
  deriving Repr, DecidableEq

/-- The mutable output record (INodeDeviceMsd and its variants); unset
fields are none. -/
structure Msd where
  type : Option Nat := none
  typeLabel : Option String := none
  companyIdentifier : Option Nat := none
  model : Option Nat := none
  modelLabel : Option String := none
  rtto : Option Bool := none
  alarms : Option Alarms := none
  groups : Option Nat := none
  batteryLevel : Option Int := none
  batteryVoltage : Option ℚ := none
  position : Option MotionPosition := none
  temperature : Option ℚ := none
  humidity : Option ℚ := none
  magneticField : Option Nat := none
  magneticFieldDirection : Option Bool := none
  input : Option Bool := none
  output : Option Bool := none
  time : Option JsTime := none
  signature : Option Buffer := none
  unit : Option Nat := none
  constant : Option Nat := none
  averageUnit : Option String := none
  sumUnit : Option String := none
  average : Option ℚ := none
  sum : Option ℚ := none
  lightLevel : Option ℚ := none
  weekDay : Option JsWeekDay := none
  weekDayTotal : Option Nat := none
  deriving Repr, DecidableEq

/-- A fresh, fully unset output record. -/
def Msd.empty : Msd := {}

/-- A decode primitive operating at a buffer offset (the shape of the
optional decodePosition / decodeValue1 / decodeValue2 arguments). -/
abbrev FieldDecoder := Buffer → Nat → Msd → Msd

/-- decodeInput (lib/index.js lines 509-512). -/
def decodeInput (buffer : Buffer) (i : Nat) (msd : Msd) : Msd :=
  { msd with input := some (decide (buffer.getD i 0 &&& 0x08 ≠ 0)) }

/-- decodeOutput (lib/index.js lines 520-523). -/
def decodeOutput (buffer : Buffer) (i : Nat) (msd : Msd) : Msd :=
  { msd with output := some (decide (buffer.getD i 0 &&& 0x01 ≠ 0)) }

/-- decodeRtto (lib/index.js lines 531-534). -/
def decodeRtto (buffer : Buffer) (i : Nat) (msd : Msd) : Msd :=
  { msd with rtto := some (decide (buffer.getD i 0 &&& 0x02 ≠ 0)) }

/-- decodeMagneticFieldDirection (lib/index.js lines 542-545). -/
def decodeMagneticFieldDirection (buffer : Buffer) (i : Nat) (msd : Msd) : Msd :=
  { msd with magneticFieldDirection := some (decide (buffer.getD i 0 &&& 0x08 ≠ 0)) }

/-- decodeAlarms of the newer module (lib/index.js lines 554-579).  The -1
sentinel offsets are modelled by Int offsets. -/
def decodeAlarms (buffer : Buffer) (batteryI extendedI : Int) (msd : Msd) : Msd :=
  let battery := ((if batteryI = -1 then 0 else buffer.getD batteryI.toNat 0) <<< 13) &&& 0x8000
  let extended := if extendedI = -1 then 0 else readUInt16LE buffer extendedI.toNat
  let alarms := extended ||| battery
  let base : Alarms := { lowBattery := decide (alarms &&& 0x8000 ≠ 0) }
  if extendedI ≠ -1 then
    { msd with alarms := some { base with extended := some {
        moveAccelerometer := decide (alarms &&& 0x01 ≠ 0)
        levelAccelerometer := decide (alarms &&& 0x02 ≠ 0)
        levelTemperature := decide (alarms &&& 0x04 ≠ 0)
        levelHumidity := decide (alarms &&& 0x08 ≠ 0)
        contactChange := decide (alarms &&& 0x10 ≠ 0)
        moveStopped := decide (alarms &&& 0x20 ≠ 0)
        moveGTimer := decide (alarms &&& 0x40 ≠ 0)
        levelAccelerometerChange := decide (alarms &&& 0x80 ≠ 0)
        levelMagnetChange := decide (alarms &&& 0x100 ≠ 0)
        levelMagnetTimer := decide (alarms &&& 0x200 ≠ 0) } } }
  else
    { msd with alarms := some base }

/-- decodeGroups (lib/index.js lines 587-590). -/
def decodeGroups (buffer : Buffer) (i : Nat) (msd : Msd) : Msd :=
  { msd with groups := some (readUInt16LE buffer i &&& 0x0FFF) }

/-- The battery level as a function of the extracted 4-bit code (the if/else
of decodeBatteryLevel, lib/index.js lines 603-610). -/
def batteryLevelOfCode (value : Nat) : Int :=
  if value = 1 then 100 else 10 * (min (value : Int) 11 - 1)

/-- decodeBatteryLevel (lib/index.js lines 599-613). -/
def decodeBatteryLevel (buffer : Buffer) (i shift : Nat) (msd : Msd) : Msd :=
  let value := (readUInt16LE buffer i >>> shift) &&& 0x0F
  let level := batteryLevelOfCode value
  { msd with
    batteryLevel := some level
    batteryVoltage := some (((level : ℚ) - 10) * 1.2 / 100 + 1.8) }

/-- decodeMotionSensor (lib/index.js lines 697-710): the non-standard 5-bit
sign correction subtracting 0x1F when bit 4 of the field is set. -/
def signCorrect5 (v : Nat) : Int :=
  (v : Int) - (if v &&& 0x10 ≠ 0 then 0x1F else 0)

/-- decodeMotionSensor (lib/index.js lines 697-710). -/
def decodeMotionSensor (buffer : Buffer) (i : Nat) (msd : Msd) : Msd :=
  let value := readUInt16LE buffer i
  let x := (value >>> 10) &&& 0x1F
  let y := (value >>> 5) &&& 0x1F
  let z := value &&& 0x1F
  { msd with position := some {
      motion := decide (value &&& 0x8000 ≠ 0)
      x := signCorrect5 x
      y := signCorrect5 y
      z := signCorrect5 z } }

/-- The value computed by decodeCsrTemperature before the clamping step
(lib/index.js lines 720-725). -/
def csrPreClamp (buffer : Buffer) (i : Nat) : Int :=
  let value := readUInt16LE buffer i
  if 127 < value then (value : Int) - 8192 else (value : Int)

/-- decodeCsrTemperature (lib/index.js lines 718-737). -/
def decodeCsrTemperature (buffer : Buffer) (i : Nat) (msd : Msd) : Msd :=
  let value := csrPreClamp buffer i
  let value := if value < -30 then -30 else if 70 < value then 70 else value
  { msd with temperature := some (value : ℚ) }

/-- The value computed by decodeMcp9844Temperature before the clamping step
(lib/index.js lines 747-754). -/
def mcp9844PreClamp (buffer : Buffer) (i : Nat) : ℚ :=
  let b1 := buffer.getD i 0
  let b2 := buffer.getD (i + 1) 0
  (b1 : ℚ) * 0.0625 + 16 * ((b2 &&& 0x0F : Nat) : ℚ)
    - (if b2 &&& 0x10 ≠ 0 then 256 else 0)

/-- decodeMcp9844Temperature (lib/index.js lines 745-766). -/
def decodeMcp9844Temperature (buffer : Buffer) (i : Nat) (msd : Msd) : Msd :=
  let value := mcp9844PreClamp buffer i
  let value := if value < -30 then -30 else if 70 < value then 70 else value
  { msd with temperature := some ((jsRound (value * 100) : ℚ) / 100) }

/-- The value computed by decodeSi7021Temperature before the clamping step
(lib/index.js lines 776-778). -/
def si7021TemperaturePreClamp (buffer : Buffer) (i : Nat) : ℚ :=
  (readUInt16LE buffer i : ℚ) * 175.72 * 4 / 65536 - 46.85

/-- decodeSi7021Temperature (lib/index.js lines 774-790). -/
def decodeSi7021Temperature (buffer : Buffer) (i : Nat) (msd : Msd) : Msd :=
  let value := si7021TemperaturePreClamp buffer i
  let value := if value < -30 then -30 else if 70 < value then 70 else value
  { msd with temperature := some ((jsRound (value * 100) : ℚ) / 100) }

/-- decodeSi7021Humidity (lib/index.js lines 798-814). -/
def decodeSi7021Humidity (buffer : Buffer) (i : Nat) (msd : Msd) : Msd :=
  let value := (readUInt16LE buffer i : ℚ) * 125 * 4 / 65536 - 6
  let value := if value < 1 then 1 else if 100 < value then 100 else value
  { msd with humidity := some ((jsRound (value * 100) : ℚ) / 100) }

/-- decodeMagneticField (lib/index.js lines 822-825). -/
def decodeMagneticField (buffer : Buffer) (i : Nat) (msd : Msd) : Msd :=
  { msd with magneticField := some (readUInt16LE buffer i) }

/-- decodeTime (lib/index.js lines 833-840); the JavaScript << 16 and | act
on signed 32-bit integers. -/
def decodeTime (buffer : Buffer) (i : Nat) (msd : Msd) : Msd :=
  let value1 := readUInt16LE buffer i <<< 16
  let value2 := readUInt16LE buffer (i + 2)
  let value := toInt32 (value1 ||| value2)
  { msd with time := some (JsTime.epochSeconds value) }

/-- decodeSignature (lib/index.js lines 848-851). -/
def decodeSignature (buffer : Buffer) (i : Nat) (msd : Msd) : Msd :=
  { msd with signature := some ((buffer.drop i).take 8) }

/-- The unit labels and the defaulted constant chosen by the
if / else if / else block of decodeEnergyMeter (lib/index.js lines
627-656), as a function of the decoded unit and raw constant fields. -/
def energyMeterBranch (unit constant0 : Nat) : String × String × Nat :=
  if unit = 0 then ("kWh", "kW", if constant0 = 0 then 1000 else constant0)
  else if unit = 1 then ("m³", "m³", if constant0 = 0 then 1000 else constant0)
  else ("cnt", "cnt", if constant0 = 0 then 1 else constant0)

/-- The tail of decodeEnergyMeter from the extraDataLength comparison on
(lib/index.js lines 663-688): the extra battery / light / week-day region
when the buffer covers it, the fixed defaults otherwise. -/
def decodeEnergyMeterExtra (buffer : Buffer) (i : Nat) (msd : Msd) : Msd :=
  if i + 2 + 4 + 2 + 1 + 2 ≤ buffer.length then
    let msd := decodeBatteryLevel buffer (i + 8) 4 msd
    let msd := { msd with
      lightLevel := some ((jsRound (((buffer.getD (i + 8) 0 &&& 0x0F : Nat) : ℚ) * 100 / 15 * 10) : ℚ) / 10) }
    let weekDataData := readUInt16LE buffer (i + 9)
    { msd with
      weekDay := some (JsWeekDay.ofBits (weekDataData >>> 13))
      weekDayTotal := some (weekDataData &&& 0x1FFF) }
  else
    { msd with
      batteryLevel := some 100
      batteryVoltage := some 2.88
      lightLevel := some 0
      weekDay := some JsWeekDay.yesterdayOfNow
      weekDayTotal := some 0 }

/-- decodeEnergyMeter of the newer module (lib/index.js lines 621-689). -/
def decodeEnergyMeter (buffer : Buffer) (i : Nat) (msd : Msd) : Msd :=
  let options := readUInt16LE buffer (i + 6)
  let unit := (options >>> 14) &&& 3
  let constant0 := options &&& 0x3FFF
  let branch := energyMeterBranch unit constant0
  let constant := branch.2.2
  decodeEnergyMeterExtra buffer i { msd with
    averageUnit := some branch.1
    sumUnit := some branch.2.1
    unit := some unit
    constant := some constant
    average := some ((jsRound (60 * (readUInt16LE buffer i : ℚ) / constant * 1000) : ℚ) / 1000)
    sum := some ((jsRound ((readUInt32LE buffer (i + 2) : ℚ) / constant * 1000) : ℚ) / 1000) }

/-- decodeGsmCareSensor (lib/index.js lines 443-468). -/
def decodeGsmCareSensor (buffer : Buffer)
    (decodePosition decodeValue1 decodeValue2 : Option FieldDecoder)
    (msd : Msd) : Msd :=
  let msd := decodeAlarms buffer 0 24 msd
  let msd := { msd with
    groups := some 0
    batteryLevel := some 100
    batteryVoltage := some 2.88 }
  let msd := match decodePosition with
    | some f => f buffer 26 msd
    | none => msd
  let msd := match decodeValue1 with
    | some f => f buffer 28 msd
    | none => msd
  let msd := match decodeValue2 with
    | some f => f buffer 30 msd
    | none => msd
  { msd with
    time := some JsTime.now
    signature := some (List.replicate 8 0) }

/-- decodeMsdCareSensor (lib/index.js lines 478-501). -/
def decodeMsdCareSensor (buffer : Buffer)
    (decodePosition decodeValue1 decodeValue2 : Option FieldDecoder)
    (msd : Msd) : Msd :=
  let msd := decodeAlarms buffer 0 4 msd
  let msd := decodeGroups buffer 2 msd
  let msd := decodeBatteryLevel buffer 2 12 msd
  let msd := match decodePosition with
    | some f => f buffer 6 msd
    | none => msd
  let msd := match decodeValue1 with
    | some f => f buffer 8 msd
    | none => msd
  let msd := match decodeValue2 with
    | some f => f buffer 10 msd
    | none => msd
  let msd := decodeTime buffer 12 msd
  decodeSignature buffer 16 msd

/- The msdDecoders table entries (lib/index.js lines 203-352). -/

def msdDecodeBeacon (buffer : Buffer) (msd : Msd) : Msd :=
  decodeAlarms buffer 0 (-1) (decodeRtto buffer 0
    { msd with model := some DeviceModel.Beacon, modelLabel := some "iNode Beacon" })

def msdDecodeEnergyMeter (buffer : Buffer) (msd : Msd) : Msd :=
  decodeEnergyMeter buffer 2 (decodeAlarms buffer 0 (-1) (decodeRtto buffer 0
    { msd with model := some DeviceModel.EnergyMeter, modelLabel := some "iNode Energy Meter" }))

def msdDecodeControlId (buffer : Buffer) (msd : Msd) : Msd :=
  decodeAlarms buffer 0 (-1) (decodeRtto buffer 0
    { msd with model := some DeviceModel.ControlId, modelLabel := some "iNode Control ID" })

def msdDecodeNav (buffer : Buffer) (msd : Msd) : Msd :=
  decodeAlarms buffer 0 (-1) (decodeRtto buffer 0
    { msd with model := some DeviceModel.Nav, modelLabel := some "iNode Nav" })

def msdDecodeCareSensor1 (buffer : Buffer) (msd : Msd) : Msd :=
  decodeMsdCareSensor buffer (some decodeMotionSensor) (some decodeCsrTemperature) none
    (decodeRtto buffer 0
      { msd with model := some DeviceModel.CareSensor1, modelLabel := some "iNode Care Sensor #1" })

def msdDecodeCareSensor2 (buffer : Buffer) (msd : Msd) : Msd :=
  decodeMsdCareSensor buffer (some decodeMotionSensor) (some decodeMcp9844Temperature) none
    (decodeRtto buffer 0
      { msd with model := some DeviceModel.CareSensor2, modelLabel := some "iNode Care Sensor #2" })

def msdDecodeCareSensor3 (buffer : Buffer) (msd : Msd) : Msd :=
  decodeMsdCareSensor buffer (some decodeMotionSensor) (some decodeSi7021Temperature)
    (some decodeSi7021Humidity)
    (decodeRtto buffer 0
      { msd with model := some DeviceModel.CareSensor3, modelLabel := some "iNode Care Sensor #3" })

def msdDecodeCareSensor4 (buffer : Buffer) (msd : Msd) : Msd :=
  decodeInput buffer 0
    (decodeMsdCareSensor buffer (some decodeMotionSensor) (some decodeCsrTemperature) none
      (decodeRtto buffer 0
        { msd with model := some DeviceModel.CareSensor4, modelLabel := some "iNode Care Sensor #4" }))

def msdDecodeCareSensor5 (buffer : Buffer) (msd : Msd) : Msd :=
  decodeMagneticFieldDirection buffer 0
    (decodeMsdCareSensor buffer (some decodeMotionSensor) (some decodeCsrTemperature)
      (some decodeMagneticField)
      (decodeRtto buffer 0
        { msd with model := some DeviceModel.CareSensor5, modelLabel := some "iNode Care Sensor #5" }))

def msdDecodeCareSensor6 (buffer : Buffer) (msd : Msd) : Msd :=
  decodeOutput buffer 0
    (decodeInput buffer 0
      (decodeMsdCareSensor buffer (some decodeMotionSensor) (some decodeCsrTemperature) none
        (decodeRtto buffer 0
          { msd with model := some DeviceModel.CareSensor6, modelLabel := some "iNode Care Sensor #6" })))

def msdDecodeCareSensorT (buffer : Buffer) (msd : Msd) : Msd :=
  decodeMsdCareSensor buffer none (some decodeMcp9844Temperature) none
    (decodeRtto buffer 0
      { msd with model := some DeviceModel.CareSensorT, modelLabel := some "iNode Care Sensor T" })

def msdDecodeCareSensorHT (buffer : Buffer) (msd : Msd) : Msd :=
  decodeMsdCareSensor buffer none (some decodeSi7021Temperature) (some decodeSi7021Humidity)
    (decodeRtto buffer 0
      { msd with model := some DeviceModel.CareSensorHT, modelLabel := some "iNode Care Sensor HT" })

def msdDecodeControlPoint (buffer : Buffer) (msd : Msd) : Msd :=
  decodeAlarms buffer 0 (-1) (decodeRtto buffer 0
    { msd with model := some DeviceModel.ControlPoint, modelLabel := some "iNode Control Point" })

def msdDecodeCareRelay (buffer : Buffer) (msd : Msd) : Msd :=
  decodeOutput buffer 0
    (decodeAlarms buffer 0 (-1) (decodeRtto buffer 0
      { msd with model := some DeviceModel.CareRelay, modelLabel := some "iNode Care Relay" }))

def msdDecodeTransceiverUart (buffer : Buffer) (msd : Msd) : Msd :=
  decodeAlarms buffer 0 (-1) (decodeRtto buffer 0
    { msd with model := some DeviceModel.TransceiverUart, modelLabel := some "iNode Transceiver UART" })

def msdDecodeTransceiverUsb (buffer : Buffer) (msd : Msd) : Msd :=
  decodeAlarms buffer 0 (-1) (decodeRtto buffer 0
    { msd with model := some DeviceModel.TransceiverUsb, modelLabel := some "iNode Transceiver USB" })

def msdDecodeGsm (buffer : Buffer) (msd : Msd) : Msd :=
  decodeAlarms buffer 0 (-1) (decodeRtto buffer 0
    { msd with model := some DeviceModel.Gsm, modelLabel := some "iNode GSM" })

/-- The msdDecoders dispatch table (lib/index.js lines 203-352), as a lookup
from the device model byte. -/
def msdDecoders (m : Nat) : Option (Buffer → Msd → Msd) :=
  if m = DeviceModel.Beacon then some msdDecodeBeacon
  else if m = DeviceModel.EnergyMeter then some msdDecodeEnergyMeter
  else if m = DeviceModel.ControlId then some msdDecodeControlId
  else if m = DeviceModel.Nav then some msdDecodeNav
  else if m = DeviceModel.CareSensor1 then some msdDecodeCareSensor1
  else if m = DeviceModel.CareSensor2 then some msdDecodeCareSensor2
  else if m = DeviceModel.CareSensor3 then some msdDecodeCareSensor3
  else if m = DeviceModel.CareSensor4 then some msdDecodeCareSensor4
  else if m = DeviceModel.CareSensor5 then some msdDecodeCareSensor5
  else if m = DeviceModel.CareSensor6 then some msdDecodeCareSensor6
  else if m = DeviceModel.CareSensorT then some msdDecodeCareSensorT
  else if m = DeviceModel.CareSensorHT then some msdDecodeCareSensorHT
  else if m = DeviceModel.ControlPoint then some msdDecodeControlPoint
  else if m = DeviceModel.CareRelay then some msdDecodeCareRelay
  else if m = DeviceModel.TransceiverUart then some msdDecodeTransceiverUart
  else if m = DeviceModel.TransceiverUsb then some msdDecodeTransceiverUsb
  else if m = DeviceModel.Gsm then some msdDecodeGsm
  else none

/- The gsmDecoders table entries (lib/index.js lines 123-198).  Unlike the
msdDecoders entries, these set only modelLabel, never model. -/

def gsmDecodeEnergyMeter (buffer : Buffer) (msd : Msd) : Msd :=
  decodeEnergyMeter (buffer.take (buffer.length - 6)) 24
    (decodeAlarms buffer (-1) (-1) (decodeRtto buffer 0
      { msd with modelLabel := some "iNode Energy Meter" }))

def gsmDecodeCareSensor1 (buffer : Buffer) (msd : Msd) : Msd :=
  decodeMsdCareSensor buffer (some decodeMotionSensor) (some decodeCsrTemperature) none
    (decodeRtto buffer 0 { msd with modelLabel := some "iNode Care Sensor #1" })

def gsmDecodeCareSensor2 (buffer : Buffer) (msd : Msd) : Msd :=
  decodeMsdCareSensor buffer (some decodeMotionSensor) (some decodeMcp9844Temperature) none
    (decodeRtto buffer 0 { msd with modelLabel := some "iNode Care Sensor #2" })

def gsmDecodeCareSensor3 (buffer : Buffer) (msd : Msd) : Msd :=
  decodeMsdCareSensor buffer (some decodeMotionSensor) (some decodeSi7021Temperature)
    (some decodeSi7021Humidity)
    (decodeRtto buffer 0 { msd with modelLabel := some "iNode Care Sensor #3" })

def gsmDecodeCareSensor4 (buffer : Buffer) (msd : Msd) : Msd :=
  decodeInput buffer 0
    (decodeGsmCareSensor buffer (some decodeMotionSensor) (some decodeCsrTemperature) none
      (decodeRtto buffer 0 { msd with modelLabel := some "iNode Care Sensor #4" }))

def gsmDecodeCareSensor5 (buffer : Buffer) (msd : Msd) : Msd :=
  decodeMagneticFieldDirection buffer 0
    (decodeGsmCareSensor buffer (some decodeMotionSensor) (some decodeCsrTemperature)
      (some decodeMagneticField)
      (decodeRtto buffer 0 { msd with modelLabel := some "iNode Care Sensor #5" }))

def gsmDecodeCareSensor6 (buffer : Buffer) (msd : Msd) : Msd :=
  decodeOutput buffer 0
    (decodeInput buffer 0
      (decodeGsmCareSensor buffer (some decodeMotionSensor) (some decodeCsrTemperature) none
        (decodeRtto buffer 0 { msd with modelLabel := some "iNode Care Sensor #6" })))

def gsmDecodeCareSensorT (buffer : Buffer) (msd : Msd) : Msd :=
  decodeGsmCareSensor buffer none (some decodeMcp9844Temperature) none
    (decodeRtto buffer 0 { msd with modelLabel := some "iNode Care Sensor T" })

def gsmDecodeCareSensorHT (buffer : Buffer) (msd : Msd) : Msd :=
  decodeGsmCareSensor buffer none (some decodeSi7021Temperature) (some decodeSi7021Humidity)
    (decodeRtto buffer 0 { msd with modelLabel := some "iNode Care Sensor HT" })

/-- The gsmDecoders dispatch table (lib/index.js lines 123-198). -/
def gsmDecoders (m : Nat) : Option (Buffer → Msd → Msd) :=
  if m = DeviceModel.EnergyMeter then some gsmDecodeEnergyMeter
  else if m = DeviceModel.CareSensor1 then some gsmDecodeCareSensor1
  else if m = DeviceModel.CareSensor2 then some gsmDecodeCareSensor2
  else if m = DeviceModel.CareSensor3 then some gsmDecodeCareSensor3
  else if m = DeviceModel.CareSensor4 then some gsmDecodeCareSensor4
  else if m = DeviceModel.CareSensor5 then some gsmDecodeCareSensor5
  else if m = DeviceModel.CareSensor6 then some gsmDecodeCareSensor6
  else if m = DeviceModel.CareSensorT then some gsmDecodeCareSensorT
  else if m = DeviceModel.CareSensorHT then some gsmDecodeCareSensorHT
  else none

/-- The error message thrown by decodeMsd for an unknown device model
(lib/index.js line 70); \x27 is the apostrophe of the template string. -/
def unsupportedModelMessage (deviceModel : Nat) : String :=
  "Cannot decode iNode MSD: \x27" ++ toString deviceModel
    ++ "\x27 is not a valid device model!"

/-- decodeMsd (lib/index.js lines 63-85): the fallible direct-MSD entry
point; a thrown Error is modelled as Except.error with the thrown message. -/
def decodeMsd (buffer : Buffer) (msd : Option Msd) : Except String Msd :=
  let deviceModel := buffer.getD 1 0
  match msdDecoders deviceModel with
  | none => Except.error (unsupportedModelMessage deviceModel)
  | some deviceModelDecoder =>
    let msd0 := match msd with
      | some m => m
      | none =>
        { Msd.empty with
          type := some eirManufacturerSpecificData
          typeLabel := some "ManufacturerSpecificData"
          companyIdentifier := some (readUInt16LE buffer 0) }
    Except.ok (deviceModelDecoder buffer msd0)

/-- One byte as rendered inside decodeGsmMacAddress (lib/index.js line 429):
JavaScript (b < 0x10 ? plus-zero : empty) + b.toString(16).toUpperCase();
Nat.toDigits 16 is the lowercase hexadecimal representation that
Number.prototype.toString(16) produces on a byte. -/
def jsByteHexUpper (b : Nat) : String :=
  (if b < 0x10 then "0" else "") ++ String.mk ((Nat.toDigits 16 b).map Char.toUpper)

/-- decodeGsmMacAddress (lib/index.js lines 423-433): bytes 7 down to 2 in
descending index order, joined with colons. -/
def decodeGsmMacAddress (buffer : Buffer) : String :=
  String.intercalate ":" ([7, 6, 5, 4, 3, 2].map fun i => jsByteHexUpper (buffer.getD i 0))

/-- The synthesized advertising report built by decodeGsmDataRecord
(lib/index.js lines 393-411).  The data array entries become the localName
fields (data with index 0) and the msd field (data with index 1); the local
name value (a UTF-8 decoded string in the source) is modelled at the byte
level, with the NUL bytes stripped like the replace of line 403. -/
structure GsmReport where
  eventType : Nat
  eventTypeLabel : String
  addressType : Nat
  addressTypeLabel : String
  address : String
  length : Int
  localNameType : Nat
  localNameTypeLabel : String
  localName : Buffer
  msd : Msd
  rssi : Int
  deriving Repr, DecidableEq

/-- decodeGsmDataRecord (lib/index.js lines 383-416): null for an unknown
device model byte, otherwise the synthesized report. -/
def decodeGsmDataRecord (gsmTime : Int) (recordType : Nat) (recordData : Buffer) :
    Option GsmReport :=
  let deviceModel := recordData.getD 1 0
  match gsmDecoders deviceModel with
  | none => none
  | some deviceModelDecoder =>
    let msd0 : Msd :=
      { Msd.empty with
        type := some eirManufacturerSpecificData
        typeLabel := some "ManufacturerSpecificData"
        model := some deviceModel
        modelLabel := none }
    some
      { eventType := advertisingReportEventTypeAdvInd
        eventTypeLabel := "AdvInd"
        addressType := advertisingReportAddressTypePublic
        addressTypeLabel := "Public"
        address := decodeGsmMacAddress recordData
        length := -1
        localNameType := eirLocalNameComplete
        localNameTypeLabel := "LocalNameComplete"
        localName := ((recordData.drop 8).take 16).filter (fun b => b ≠ 0)
        msd := deviceModelDecoder recordData msd0
        rssi := readInt8 recordData (recordData.length - 4) }

/-- tryDecodeGsmDataRecord (lib/index.js lines 361-373): pushes the report
when one is produced.  The try/catch of the source swallows thrown
RangeErrors from out-of-range reads; those reads are totalized in this
model, so the catch branch has nothing left to absorb. -/
def tryDecodeGsmDataRecord (gsmTime : Int) (recordType : Nat) (recordData : Buffer) :
    List GsmReport :=
  (decodeGsmDataRecord gsmTime recordType recordData).toList

/-- The scanning loop of decodeGsmData (lib/index.js lines 96-115), with the
bytes still to scan and the reports pushed so far.  A list with fewer than
two remaining bytes reproduces the source reading an undefined recordLength,
whose comparison with the empty slice breaks the loop. -/
def gsmScanAux (gsmTime : Int) : Buffer → List GsmReport → List GsmReport
  | [], reports => reports
  | [_], reports => reports
  | recordType :: recordLength :: rest, reports =>
    let recordData := rest.take recordLength
    if recordData.length ≠ recordLength then reports
    else if recordLength < 24 then gsmScanAux gsmTime (rest.drop recordLength) reports
    else gsmScanAux gsmTime (rest.drop recordLength)
      (reports ++ tryDecodeGsmDataRecord gsmTime recordType recordData)
termination_by bytes _ => bytes.length
decreasing_by
  all_goals simp [List.length_drop]
  all_goals omega

/-- decodeGsmData (lib/index.js lines 92-118). -/
def decodeGsmData (gsmTime : Int) (gsmData : Buffer) : List GsmReport :=
  gsmScanAux gsmTime gsmData []

/-- The alarms object of the legacy module, which always carries all eleven
flags (lib/index.js legacy part, lines 1176-1188 of the concatenated
sources). -/
structure LegacyAlarms where
  moveAccelerometer : Bool
  levelAccelerometer : Bool
  levelTemperature : Bool
  levelHumidity : Bool
  contactChange : Bool
  moveStopped : Bool
  moveGTimer : Bool
  levelAccelerometerChange : Bool
  levelMagnetChange : Bool
  levelMagnetTimer : Bool
  lowBattery : Bool
  deriving Repr, DecidableEq

/-- The slice of the legacy eirDataStructure that its decodeAlarms
writes. -/
structure LegacyEir where
  alarms : Option LegacyAlarms := none
  deriving Repr, DecidableEq

/-- decodeAlarms of the legacy module (legacy lines 1170-1189): the battery
byte is masked with 0xC000 instead of 0x8000, and all eleven flags are
always populated. -/
def Legacy.decodeAlarms (buffer : Buffer) (batteryI extendedI : Int)
    (eirDataStructure : LegacyEir) : LegacyEir :=
  let battery := ((if batteryI = -1 then 0 else buffer.getD batteryI.toNat 0) <<< 13) &&& 0xC000
  let extended := if extendedI = -1 then 0 else readUInt16LE buffer extendedI.toNat
  let alarms := extended ||| battery
  { eirDataStructure with alarms := some {
      moveAccelerometer := decide (alarms &&& 0x01 ≠ 0)
      levelAccelerometer := decide (alarms &&& 0x02 ≠ 0)
      levelTemperature := decide (alarms &&& 0x04 ≠ 0)
      levelHumidity := decide (alarms &&& 0x08 ≠ 0)
      contactChange := decide (alarms &&& 0x10 ≠ 0)
      moveStopped := decide (alarms &&& 0x20 ≠ 0)
      moveGTimer := decide (alarms &&& 0x40 ≠ 0)
      levelAccelerometerChange := decide (alarms &&& 0x80 ≠ 0)
      levelMagnetChange := decide (alarms &&& 0x100 ≠ 0)
      levelMagnetTimer := decide (alarms &&& 0x200 ≠ 0)
      lowBattery := decide (alarms &&& 0x8000 ≠ 0) } }

/-- An uppercase hexadecimal digit (0-9, A-F). -/
def hexDigitUpper (n : Nat) : Char :=
  if n < 10 then Char.ofNat (48 + n) else Char.ofNat (55 + n)

/-- Modelled from the spec words of the MAC-synthesis claim, for comparison
with jsByteHexUpper: a byte rendered as exactly two uppercase hexadecimal
digits, zero-padded. -/
def twoHexUpper (b : Nat) : String :=
  String.mk [hexDigitUpper (b / 16 % 16), hexDigitUpper (b % 16)]

/-- The modelLabel string assigned by each msdDecoders entry, as a function
of the device model key (the table of lib/index.js lines 203-352). -/
def msdModelLabel (m : Nat) : Option String :=
  if m = DeviceModel.Beacon then some "iNode Beacon"
  else if m = DeviceModel.EnergyMeter then some "iNode Energy Meter"
  else if m = DeviceModel.ControlId then some "iNode Control ID"
  else if m = DeviceModel.Nav then some "iNode Nav"
  else if m = DeviceModel.CareSensor1 then some "iNode Care Sensor #1"
  else if m = DeviceModel.CareSensor2 then some "iNode Care Sensor #2"
  else if m = DeviceModel.CareSensor3 then some "iNode Care Sensor #3"
  else if m = DeviceModel.CareSensor4 then some "iNode Care Sensor #4"
  else if m = DeviceModel.CareSensor5 then some "iNode Care Sensor #5"
  else if m = DeviceModel.CareSensor6 then some "iNode Care Sensor #6"
  else if m = DeviceModel.CareSensorT then some "iNode Care Sensor T"
  else if m = DeviceModel.CareSensorHT then some "iNode Care Sensor HT"
  else if m = DeviceModel.ControlPoint then some "iNode Control Point"
  else if m = DeviceModel.CareRelay then some "iNode Care Relay"
  else if m = DeviceModel.TransceiverUart then some "iNode Transceiver UART"
  else if m = DeviceModel.TransceiverUsb then some "iNode Transceiver USB"
  else if m = DeviceModel.Gsm then some "iNode GSM"
  else none

/-- The modelLabel string assigned by each gsmDecoders entry, as a function
of the device model key (the table of lib/index.js lines 123-198). -/
def gsmModelLabel (m : Nat) : Option String :=
  if m = DeviceModel.EnergyMeter then some "iNode Energy Meter"
  else if m = DeviceModel.CareSensor1 then some "iNode Care Sensor #1"
  else if m = DeviceModel.CareSensor2 then some "iNode Care Sensor #2"
  else if m = DeviceModel.CareSensor3 then some "iNode Care Sensor #3"
  else if m = DeviceModel.CareSensor4 then some "iNode Care Sensor #4"
  else if m = DeviceModel.CareSensor5 then some "iNode Care Sensor #5"
  else if m = DeviceModel.CareSensor6 then some "iNode Care Sensor #6"
  else if m = DeviceModel.CareSensorT then some "iNode Care Sensor T"
  else if m = DeviceModel.CareSensorHT then some "iNode Care Sensor HT"
  else none

/-! Helper lemmas. -/

theorem and_two_pow_ne_zero_iff (x n : Nat) : x &&& 2 ^ n ≠ 0 ↔ x.testBit n := by
  constructor
  · intro h
    obtain ⟨i, hi⟩ := Nat.ne_zero_implies_bit_true h
    rw [Nat.testBit_and, Nat.testBit_two_pow] at hi
    simp only [Bool.and_eq_true, decide_eq_true_eq] at hi
    obtain ⟨h1, h2⟩ := hi
    subst h2
    exact h1
  · intro h hzero
    have h2 := Nat.testBit_and x (2 ^ n) n
    rw [hzero] at h2
    simp [Nat.testBit_two_pow_self, h] at h2

theorem decide_and_pow15 (x : Nat) : decide (x &&& 0x8000 ≠ 0) = x.testBit 15 := by
  have h : (0x8000 : Nat) = 2 ^ 15 := by norm_num
  by_cases hx : x.testBit 15
  · have h1 : x &&& 0x8000 ≠ 0 := by rw [h]; exact (and_two_pow_ne_zero_iff x 15).2 hx
    simp [h1, hx]
  · have hx2 : x.testBit 15 = false := by simpa using hx
    have h1 : x &&& 0x8000 = 0 := by
      by_contra hc
      rw [h] at hc
      have h3 := (and_two_pow_ne_zero_iff x 15).1 hc
      simp [h3] at hx2
    simp [h1, hx2]

theorem decide_and_pow15_eq_zero (x : Nat) : decide (x &&& 0x8000 = 0) = !x.testBit 15 := by
  have h := decide_and_pow15 x
  simp only [ne_eq, decide_not] at h
  rw [← h, Bool.not_not]

theorem decodeAlarms_model (b : Buffer) (bI eI : Int) (m : Msd) :
    (decodeAlarms b bI eI m).model = m.model := by
  simp only [decodeAlarms]
  repeat' split
  all_goals rfl

theorem decodeAlarms_modelLabel (b : Buffer) (bI eI : Int) (m : Msd) :
    (decodeAlarms b bI eI m).modelLabel = m.modelLabel := by
  simp only [decodeAlarms]
  repeat' split
  all_goals rfl

theorem decodeAlarms_groups (b : Buffer) (bI eI : Int) (m : Msd) :
    (decodeAlarms b bI eI m).groups = m.groups := by
  simp only [decodeAlarms]
  repeat' split
  all_goals rfl

theorem decodeAlarms_batteryLevel (b : Buffer) (bI eI : Int) (m : Msd) :
    (decodeAlarms b bI eI m).batteryLevel = m.batteryLevel := by
  simp only [decodeAlarms]
  repeat' split
  all_goals rfl

theorem decodeAlarms_batteryVoltage (b : Buffer) (bI eI : Int) (m : Msd) :
    (decodeAlarms b bI eI m).batteryVoltage = m.batteryVoltage := by
  simp only [decodeAlarms]
  repeat' split
  all_goals rfl

theorem decodeAlarms_signature (b : Buffer) (bI eI : Int) (m : Msd) :
    (decodeAlarms b bI eI m).signature = m.signature := by
  simp only [decodeAlarms]
  repeat' split
  all_goals rfl

theorem decodeEnergyMeterExtra_model (b : Buffer) (i : Nat) (m : Msd) :
    (decodeEnergyMeterExtra b i m).model = m.model := by
  unfold decodeEnergyMeterExtra
  split
  all_goals rfl

theorem decodeEnergyMeterExtra_modelLabel (b : Buffer) (i : Nat) (m : Msd) :
    (decodeEnergyMeterExtra b i m).modelLabel = m.modelLabel := by
  unfold decodeEnergyMeterExtra
  split
  all_goals rfl

theorem decodeEnergyMeter_model (b : Buffer) (i : Nat) (m : Msd) :
    (decodeEnergyMeter b i m).model = m.model := by
  simp only [decodeEnergyMeter, decodeEnergyMeterExtra_model]

theorem decodeEnergyMeter_modelLabel (b : Buffer) (i : Nat) (m : Msd) :
    (decodeEnergyMeter b i m).modelLabel = m.modelLabel := by
  simp only [decodeEnergyMeter, decodeEnergyMeterExtra_modelLabel]

theorem msdDecoders_key (m : Nat) (d : Buffer → Msd → Msd) (h : msdDecoders m = some d) :
    m = 0x80 ∨ m = 0x82 ∨ m = 0x88 ∨ m = 0x89 ∨ m = 0x91 ∨ m = 0x92 ∨ m = 0x93 ∨ m = 0x94
      ∨ m = 0x95 ∨ m = 0x96 ∨ m = 0x9A ∨ m = 0x9B ∨ m = 0xB2 ∨ m = 0xB3 ∨ m = 0xB5
      ∨ m = 0xB6 ∨ m = 0xB7 := by
  by_contra hc
  push_neg at hc
  obtain ⟨c1, c2, c3, c4, c5, c6, c7, c8, c9, c10, c11, c12, c13, c14, c15, c16, c17⟩ := hc
  simp only [msdDecoders, DeviceModel.Beacon, DeviceModel.EnergyMeter, DeviceModel.ControlId, DeviceModel.Nav,
      DeviceModel.CareSensor1, DeviceModel.CareSensor2, DeviceModel.CareSensor3,
      DeviceModel.CareSensor4, DeviceModel.CareSensor5, DeviceModel.CareSensor6,
      DeviceModel.CareSensorT, DeviceModel.CareSensorHT, DeviceModel.ControlPoint,
      DeviceModel.CareRelay, DeviceModel.TransceiverUart, DeviceModel.TransceiverUsb,
      DeviceModel.Gsm, if_neg c1, if_neg c2, if_neg c3, if_neg c4, if_neg c5,
    if_neg c6, if_neg c7, if_neg c8, if_neg c9, if_neg c10, if_neg c11, if_neg c12, if_neg c13,
    if_neg c14, if_neg c15, if_neg c16, if_neg c17] at h
  exact Option.noConfusion h

theorem gsmDecoders_key (m : Nat) (d : Buffer → Msd → Msd) (h : gsmDecoders m = some d) :
    m = 0x82 ∨ m = 0x91 ∨ m = 0x92 ∨ m = 0x93 ∨ m = 0x94 ∨ m = 0x95 ∨ m = 0x96
      ∨ m = 0x9A ∨ m = 0x9B := by
  by_contra hc
  push_neg at hc
  obtain ⟨c1, c2, c3, c4, c5, c6, c7, c8, c9⟩ := hc
  simp only [gsmDecoders, DeviceModel.Beacon, DeviceModel.EnergyMeter, DeviceModel.ControlId, DeviceModel.Nav,
      DeviceModel.CareSensor1, DeviceModel.CareSensor2, DeviceModel.CareSensor3,
      DeviceModel.CareSensor4, DeviceModel.CareSensor5, DeviceModel.CareSensor6,
      DeviceModel.CareSensorT, DeviceModel.CareSensorHT, DeviceModel.ControlPoint,
      DeviceModel.CareRelay, DeviceModel.TransceiverUart, DeviceModel.TransceiverUsb,
      DeviceModel.Gsm, if_neg c1, if_neg c2, if_neg c3, if_neg c4, if_neg c5,
    if_neg c6, if_neg c7, if_neg c8, if_neg c9] at h
  exact Option.noConfusion h

theorem msdDecoders_model (m : Nat) (d : Buffer → Msd → Msd) (h : msdDecoders m = some d)
    (b : Buffer) (msd : Msd) : (d b msd).model = some m := by
  rcases msdDecoders_key m d h with
    hm | hm | hm | hm | hm | hm | hm | hm | hm | hm | hm | hm | hm | hm | hm | hm | hm
  all_goals subst hm
  all_goals injection h with h
  all_goals subst h
  all_goals
    simp_all [msdDecodeBeacon, msdDecodeEnergyMeter, msdDecodeControlId, msdDecodeNav,
      msdDecodeCareSensor1, msdDecodeCareSensor2, msdDecodeCareSensor3, msdDecodeCareSensor4,
      msdDecodeCareSensor5, msdDecodeCareSensor6, msdDecodeCareSensorT, msdDecodeCareSensorHT,
      msdDecodeControlPoint, msdDecodeCareRelay, msdDecodeTransceiverUart, msdDecodeTransceiverUsb,
      msdDecodeGsm, decodeMsdCareSensor, decodeGsmCareSensor, decodeRtto, decodeGroups, decodeBatteryLevel,
      decodeMotionSensor, decodeCsrTemperature, decodeMcp9844Temperature, decodeSi7021Temperature,
      decodeSi7021Humidity, decodeMagneticField, decodeMagneticFieldDirection, decodeInput,
      decodeOutput, decodeTime, decodeSignature, decodeAlarms_model, decodeEnergyMeter_model, DeviceModel.Beacon, DeviceModel.EnergyMeter, DeviceModel.ControlId, DeviceModel.Nav,
      DeviceModel.CareSensor1, DeviceModel.CareSensor2, DeviceModel.CareSensor3,
      DeviceModel.CareSensor4, DeviceModel.CareSensor5, DeviceModel.CareSensor6,
      DeviceModel.CareSensorT, DeviceModel.CareSensorHT, DeviceModel.ControlPoint,
      DeviceModel.CareRelay, DeviceModel.TransceiverUart, DeviceModel.TransceiverUsb,
      DeviceModel.Gsm]

theorem msdDecoders_modelLabel (m : Nat) (d : Buffer → Msd → Msd) (h : msdDecoders m = some d)
    (b : Buffer) (msd : Msd) : (d b msd).modelLabel = msdModelLabel m := by
  rcases msdDecoders_key m d h with
    hm | hm | hm | hm | hm | hm | hm | hm | hm | hm | hm | hm | hm | hm | hm | hm | hm
  all_goals subst hm
  all_goals injection h with h
  all_goals subst h
  all_goals
    simp_all [msdModelLabel, msdDecodeBeacon, msdDecodeEnergyMeter, msdDecodeControlId, msdDecodeNav,
      msdDecodeCareSensor1, msdDecodeCareSensor2, msdDecodeCareSensor3, msdDecodeCareSensor4,
      msdDecodeCareSensor5, msdDecodeCareSensor6, msdDecodeCareSensorT, msdDecodeCareSensorHT,
      msdDecodeControlPoint, msdDecodeCareRelay, msdDecodeTransceiverUart, msdDecodeTransceiverUsb,
      msdDecodeGsm, decodeMsdCareSensor, decodeGsmCareSensor, decodeRtto, decodeGroups, decodeBatteryLevel,
      decodeMotionSensor, decodeCsrTemperature, decodeMcp9844Temperature, decodeSi7021Temperature,
      decodeSi7021Humidity, decodeMagneticField, decodeMagneticFieldDirection, decodeInput,
      decodeOutput, decodeTime, decodeSignature, decodeAlarms_modelLabel,
      decodeEnergyMeter_modelLabel, DeviceModel.Beacon, DeviceModel.EnergyMeter, DeviceModel.ControlId, DeviceModel.Nav,
      DeviceModel.CareSensor1, DeviceModel.CareSensor2, DeviceModel.CareSensor3,
      DeviceModel.CareSensor4, DeviceModel.CareSensor5, DeviceModel.CareSensor6,
      DeviceModel.CareSensorT, DeviceModel.CareSensorHT, DeviceModel.ControlPoint,
      DeviceModel.CareRelay, DeviceModel.TransceiverUart, DeviceModel.TransceiverUsb,
      DeviceModel.Gsm]

theorem gsmDecoders_model (m : Nat) (d : Buffer → Msd → Msd) (h : gsmDecoders m = some d)
    (b : Buffer) (msd : Msd) : (d b msd).model = msd.model := by
  rcases gsmDecoders_key m d h with hm | hm | hm | hm | hm | hm | hm | hm | hm
  all_goals subst hm
  all_goals injection h with h
  all_goals subst h
  all_goals
    simp_all [gsmDecodeEnergyMeter, gsmDecodeCareSensor1, gsmDecodeCareSensor2,
      gsmDecodeCareSensor3, gsmDecodeCareSensor4, gsmDecodeCareSensor5, gsmDecodeCareSensor6,
      gsmDecodeCareSensorT, gsmDecodeCareSensorHT, decodeMsdCareSensor, decodeGsmCareSensor, decodeRtto, decodeGroups, decodeBatteryLevel,
      decodeMotionSensor, decodeCsrTemperature, decodeMcp9844Temperature, decodeSi7021Temperature,
      decodeSi7021Humidity, decodeMagneticField, decodeMagneticFieldDirection, decodeInput,
      decodeOutput, decodeTime, decodeSignature, decodeAlarms_model, decodeEnergyMeter_model, DeviceModel.Beacon, DeviceModel.EnergyMeter, DeviceModel.ControlId, DeviceModel.Nav,
      DeviceModel.CareSensor1, DeviceModel.CareSensor2, DeviceModel.CareSensor3,
      DeviceModel.CareSensor4, DeviceModel.CareSensor5, DeviceModel.CareSensor6,
      DeviceModel.CareSensorT, DeviceModel.CareSensorHT, DeviceModel.ControlPoint,
      DeviceModel.CareRelay, DeviceModel.TransceiverUart, DeviceModel.TransceiverUsb,
      DeviceModel.Gsm]

theorem gsmDecoders_modelLabel (m : Nat) (d : Buffer → Msd → Msd) (h : gsmDecoders m = some d)
    (b : Buffer) (msd : Msd) : (d b msd).modelLabel = gsmModelLabel m := by
  rcases gsmDecoders_key m d h with hm | hm | hm | hm | hm | hm | hm | hm | hm
  all_goals subst hm
  all_goals injection h with h
  all_goals subst h
  all_goals
    simp_all [gsmModelLabel, gsmDecodeEnergyMeter, gsmDecodeCareSensor1, gsmDecodeCareSensor2,
      gsmDecodeCareSensor3, gsmDecodeCareSensor4, gsmDecodeCareSensor5, gsmDecodeCareSensor6,
      gsmDecodeCareSensorT, gsmDecodeCareSensorHT, decodeMsdCareSensor, decodeGsmCareSensor, decodeRtto, decodeGroups, decodeBatteryLevel,
      decodeMotionSensor, decodeCsrTemperature, decodeMcp9844Temperature, decodeSi7021Temperature,
      decodeSi7021Humidity, decodeMagneticField, decodeMagneticFieldDirection, decodeInput,
      decodeOutput, decodeTime, decodeSignature, decodeAlarms_modelLabel,
      decodeEnergyMeter_modelLabel, DeviceModel.Beacon, DeviceModel.EnergyMeter, DeviceModel.ControlId, DeviceModel.Nav,
      DeviceModel.CareSensor1, DeviceModel.CareSensor2, DeviceModel.CareSensor3,
      DeviceModel.CareSensor4, DeviceModel.CareSensor5, DeviceModel.CareSensor6,
      DeviceModel.CareSensorT, DeviceModel.CareSensorHT, DeviceModel.ControlPoint,
      DeviceModel.CareRelay, DeviceModel.TransceiverUart, DeviceModel.TransceiverUsb,
      DeviceModel.Gsm]

set_option maxRecDepth 40000 in
theorem jsByteHexUpper_eq_twoHexUpper : ∀ b < 256, jsByteHexUpper b = twoHexUpper b := by
  decide

theorem jsRound_mul_div_bounds (q : ℚ) (h1 : -30 ≤ q) (h2 : q ≤ 70) :
    -30 ≤ ((jsRound (q * 100) : ℚ) / 100) ∧ ((jsRound (q * 100) : ℚ) / 100) ≤ 70 := by
  unfold jsRound
  constructor
  · rw [le_div_iff₀ (by norm_num : (0 : ℚ) < 100)]
    have hf : (-3000 : Int) ≤ Int.floor (q * 100 + 1 / 2) := by
      apply Int.le_floor.2
      push_cast
      linarith
    have hf2 : ((-3000 : Int) : ℚ) ≤ (Int.floor (q * 100 + 1 / 2) : ℚ) := by exact_mod_cast hf
    push_cast at hf2 ⊢
    linarith
  · rw [div_le_iff₀ (by norm_num : (0 : ℚ) < 100)]
    have hfl : (Int.floor (q * 100 + 1 / 2) : ℚ) ≤ q * 100 + 1 / 2 := Int.floor_le _
    have hup : Int.floor (q * 100 + 1 / 2) ≤ 7000 := by
      by_contra hgt
      push_neg at hgt
      have h3 : (7001 : ℚ) ≤ (Int.floor (q * 100 + 1 / 2) : ℚ) := by exact_mod_cast hgt
      linarith
    have h4 : ((Int.floor (q * 100 + 1 / 2) : Int) : ℚ) ≤ ((7000 : Int) : ℚ) := by
      exact_mod_cast hup
    push_cast at h4 ⊢
    linarith

theorem decodeEnergyMeterExtra_unit (b : Buffer) (i : Nat) (m : Msd) :
    (decodeEnergyMeterExtra b i m).unit = m.unit := by
  unfold decodeEnergyMeterExtra
  split
  all_goals rfl

theorem decodeEnergyMeterExtra_constant (b : Buffer) (i : Nat) (m : Msd) :
    (decodeEnergyMeterExtra b i m).constant = m.constant := by
  unfold decodeEnergyMeterExtra
  split
  all_goals rfl

theorem decodeEnergyMeterExtra_averageUnit (b : Buffer) (i : Nat) (m : Msd) :
    (decodeEnergyMeterExtra b i m).averageUnit = m.averageUnit := by
  unfold decodeEnergyMeterExtra
  split
  all_goals rfl

theorem decodeEnergyMeterExtra_sumUnit (b : Buffer) (i : Nat) (m : Msd) :
    (decodeEnergyMeterExtra b i m).sumUnit = m.sumUnit := by
  unfold decodeEnergyMeterExtra
  split
  all_goals rfl

/-! The claims. -/

/-- Claim C1: lookup-miss asymmetry between the two transports.  For every
buffer whose byte at index 1 is not a key of msdDecoders, decodeMsd throws
the UnsupportedModel error and produces no record; for every extracted GSM
record whose byte at index 1 is not a key of gsmDecoders, decodeGsmDataRecord
yields null, and the scanner appends no report for that record and continues
scanning with the rest of the batch, raising no error. -/
theorem claim_C1_lookup_miss_asymmetry :
    (∀ (buffer : Buffer) (msd : Option Msd), msdDecoders (buffer.getD 1 0) = none →
      decodeMsd buffer msd = Except.error (unsupportedModelMessage (buffer.getD 1 0)))
    ∧ (∀ (gsmTime : Int) (recordType : Nat) (recordData : Buffer),
        gsmDecoders (recordData.getD 1 0) = none →
        decodeGsmDataRecord gsmTime recordType recordData = none)
    ∧ (∀ (gsmTime : Int) (recordType recordLength : Nat) (rest : Buffer)
        (reports : List GsmReport),
        recordLength ≤ rest.length → 24 ≤ recordLength →
        gsmDecoders ((rest.take recordLength).getD 1 0) = none →
        gsmScanAux gsmTime (recordType :: recordLength :: rest) reports
          = gsmScanAux gsmTime (rest.drop recordLength) reports) := by
  refine ⟨?_, ?_, ?_⟩
  · intro buffer msd h
    simp only [decodeMsd, h]
  · intro gsmTime recordType recordData h
    simp only [decodeGsmDataRecord, h]
  · intro gsmTime t l rest reports hlen h24 hnone
    rw [gsmScanAux.eq_3]
    have hl : (rest.take l).length = l := by
      simp only [List.length_take]
      omega
    rw [if_neg (by simp [hl]), if_neg (by omega)]
    simp only [List.getD_eq_getElem?_getD] at hnone
    simp [tryDecodeGsmDataRecord, decodeGsmDataRecord, hnone]

/-- Witness for C1 at concrete inputs: model byte 0 is in neither table. -/
theorem claim_C1_witness :
    decodeMsd [0, 0] none = Except.error (unsupportedModelMessage 0)
    ∧ decodeGsmDataRecord 0 0 (List.replicate 24 0) = none
    ∧ gsmScanAux 0 (0 :: 24 :: List.replicate 24 0) []
        = gsmScanAux 0 ((List.replicate 24 0).drop 24) [] := by
  refine ⟨?_, ?_, ?_⟩
  · exact claim_C1_lookup_miss_asymmetry.1 [0, 0] none rfl
  · exact claim_C1_lookup_miss_asymmetry.2.1 0 0 (List.replicate 24 0) rfl
  · exact claim_C1_lookup_miss_asymmetry.2.2 0 0 24 (List.replicate 24 0) []
      (by simp) (by norm_num) rfl

/-- Claim C2: a declared recordLength exceeding the bytes remaining after
the two header bytes stops the scan immediately, discards the partial
record and returns exactly the reports decoded from the earlier records;
the scanner is a total function, so no error reaches the caller. -/
theorem claim_C2_truncation_aborts :
    (∀ (gsmTime : Int) (recordType recordLength : Nat) (rest : Buffer)
        (reports : List GsmReport), rest.length < recordLength →
        gsmScanAux gsmTime (recordType :: recordLength :: rest) reports = reports)
    ∧ (∀ (gsmTime : Int) (gsmData : Buffer),
        decodeGsmData gsmTime gsmData = gsmScanAux gsmTime gsmData []) := by
  constructor
  · intro gsmTime t l rest reports h
    rw [gsmScanAux.eq_3, if_pos ?_]
    simp only [List.length_take]
    omega
  · intro gsmTime gsmData
    rfl

/-- Witness for C2: recordLength 30 declared with 10 bytes remaining. -/
theorem claim_C2_witness :
    gsmScanAux 0 (5 :: 30 :: List.replicate 10 0) [] = []
    ∧ decodeGsmData 0 (5 :: 30 :: List.replicate 10 0)
        = gsmScanAux 0 (5 :: 30 :: List.replicate 10 0) [] := by
  exact ⟨claim_C2_truncation_aborts.1 0 5 30 (List.replicate 10 0) [] (by simp),
    claim_C2_truncation_aborts.2 0 _⟩

/-- Claim C9 counterexample: the gsmDecoders entry for model 0x91 does not
set groups to 0; on a record with byte 5 at index 2 it decodes groups = 5
from the payload (it reuses decodeMsdCareSensor, not decodeGsmCareSensor). -/
theorem claim_C9_counterexample :
    ¬ (∀ (d : Buffer → Msd → Msd), gsmDecoders 0x91 = some d →
        (d [0, 0x91, 5, 0] Msd.empty).groups = some 0) := by
  intro hc
  have h := hc gsmDecodeCareSensor1 rfl
  have h2 : (gsmDecodeCareSensor1 [0, 0x91, 5, 0] Msd.empty).groups = some 5 := rfl
  rw [h2] at h
  exact absurd h (by decide)

/-- Claim C9 (amended): only the GSM care sensor decoders that use
decodeGsmCareSensor - models 0x94, 0x95, 0x96, 0x9A and 0x9B - set the
constants groups = 0, batteryLevel = 100, batteryVoltage = 2.88 and an
eight-byte all-zero signature independently of the record bytes; models
0x91-0x93 decode those fields from the payload instead. -/
theorem claim_C9_amended :
    ∀ (m : Nat) (d : Buffer → Msd → Msd) (buffer : Buffer) (msd : Msd),
      (m = 0x94 ∨ m = 0x95 ∨ m = 0x96 ∨ m = 0x9A ∨ m = 0x9B) →
      gsmDecoders m = some d →
      (d buffer msd).groups = some 0
        ∧ (d buffer msd).batteryLevel = some 100
        ∧ (d buffer msd).batteryVoltage = some 2.88
        ∧ (d buffer msd).signature = some (List.replicate 8 0) := by
  intro m d buffer msd hm h
  rcases hm with hm | hm | hm | hm | hm
  all_goals subst hm
  all_goals injection h with h
  all_goals subst h
  all_goals
    simp_all [gsmDecodeCareSensor4, gsmDecodeCareSensor5, gsmDecodeCareSensor6,
      gsmDecodeCareSensorT, gsmDecodeCareSensorHT, decodeGsmCareSensor, decodeRtto, decodeInput,
      decodeOutput, decodeMagneticFieldDirection, decodeMotionSensor, decodeCsrTemperature,
      decodeMcp9844Temperature, decodeSi7021Temperature, decodeSi7021Humidity, decodeMagneticField,
      decodeAlarms_groups, decodeAlarms_batteryLevel, decodeAlarms_batteryVoltage,
      decodeAlarms_signature]

/-- Witness for the amended C9 at model 0x94 on an empty buffer. -/
theorem claim_C9_witness :
    (gsmDecodeCareSensor4 [] Msd.empty).groups = some 0
    ∧ (gsmDecodeCareSensor4 [] Msd.empty).batteryLevel = some 100
    ∧ (gsmDecodeCareSensor4 [] Msd.empty).batteryVoltage = some 2.88
    ∧ (gsmDecodeCareSensor4 [] Msd.empty).signature = some (List.replicate 8 0) :=
  claim_C9_amended 0x94 gsmDecodeCareSensor4 [] Msd.empty (Or.inl rfl) rfl

/-- Claim C10: the legacy decodeAlarms (battery byte shifted left 13 and
masked with 0xC000) and the newer decodeAlarms (masked with 0x8000) compute
the same lowBattery flag, namely bit 2 of the battery byte OR bit 15 of the
extended word; the extra bit 14 kept by the legacy mask is never tested. -/
theorem claim_C10_lowBattery_agreement :
    ∀ (buffer : Buffer) (batteryI extendedI : Int) (msd : Msd) (eir : LegacyEir),
      Option.map Alarms.lowBattery (decodeAlarms buffer batteryI extendedI msd).alarms
        = some (((if batteryI = -1 then 0 else buffer.getD batteryI.toNat 0).testBit 2)
            || ((if extendedI = -1 then 0 else readUInt16LE buffer extendedI.toNat).testBit 15))
      ∧ Option.map LegacyAlarms.lowBattery
          (Legacy.decodeAlarms buffer batteryI extendedI eir).alarms
        = some (((if batteryI = -1 then 0 else buffer.getD batteryI.toNat 0).testBit 2)
            || ((if extendedI = -1 then 0 else readUInt16LE buffer extendedI.toNat).testBit 15)) := by
  intro buffer batteryI extendedI msd eir
  constructor
  · by_cases hB : batteryI = -1 <;> by_cases hE : extendedI = -1 <;>
      simp [decodeAlarms, hB, hE, decide_and_pow15, decide_and_pow15_eq_zero, Nat.and_assoc,
        Nat.testBit_or, Nat.testBit_and, Nat.testBit_shiftLeft, Bool.or_comm,
        (by decide : (0x8000 : Nat).testBit 15 = true)]
  · by_cases hB : batteryI = -1 <;> by_cases hE : extendedI = -1 <;>
      simp [Legacy.decodeAlarms, hB, hE, decide_and_pow15, decide_and_pow15_eq_zero,
        Nat.and_assoc, Nat.testBit_or, Nat.testBit_and, Nat.testBit_shiftLeft, Bool.or_comm,
        (by decide : (0xC000 : Nat).testBit 15 = true),
        (by decide : (0xC000 : Nat) &&& 0x8000 = 0x8000)]

/-- Claim C3: for every successful decode, both via decodeMsd and via the
GSM record path, the model field of the resulting record equals the
device-model byte at index 1 of the buffer used for dispatch; and every
model code present in a dispatch table is assigned exactly one non-empty
modelLabel string (the label is a function of the key alone). -/
theorem claim_C3_model_roundtrip :
    (∀ (buffer : Buffer) (msd : Option Msd) (out : Msd),
      decodeMsd buffer msd = Except.ok out → out.model = some (buffer.getD 1 0))
    ∧ (∀ (gsmTime : Int) (recordType : Nat) (recordData : Buffer) (report : GsmReport),
        decodeGsmDataRecord gsmTime recordType recordData = some report →
        report.msd.model = some (recordData.getD 1 0))
    ∧ (∀ (m : Nat) (d : Buffer → Msd → Msd), msdDecoders m = some d →
        (∀ (b : Buffer) (msd : Msd), (d b msd).modelLabel = msdModelLabel m)
          ∧ msdModelLabel m ≠ none ∧ msdModelLabel m ≠ some "")
    ∧ (∀ (m : Nat) (d : Buffer → Msd → Msd), gsmDecoders m = some d →
        (∀ (b : Buffer) (msd : Msd), (d b msd).modelLabel = gsmModelLabel m)
          ∧ gsmModelLabel m ≠ none ∧ gsmModelLabel m ≠ some "") := by
  refine ⟨?_, ?_, ?_, ?_⟩
  · intro buffer msd out h
    cases hd : msdDecoders (buffer.getD 1 0) with
    | none =>
      simp only [decodeMsd, hd] at h
      simp at h
    | some dec =>
      simp only [decodeMsd, hd] at h
      injection h with h
      subst h
      exact msdDecoders_model _ dec hd buffer _
  · intro gsmTime recordType recordData report h
    cases hd : gsmDecoders (recordData.getD 1 0) with
    | none => rw [decodeGsmDataRecord, hd] at h; exact Option.noConfusion h
    | some dec =>
      rw [decodeGsmDataRecord, hd] at h
      injection h with h
      subst h
      simp only [gsmDecoders_model _ dec hd]
  · intro m d h
    refine ⟨fun b msd => msdDecoders_modelLabel m d h b msd, ?_⟩
    rcases msdDecoders_key m d h with
      hm | hm | hm | hm | hm | hm | hm | hm | hm | hm | hm | hm | hm | hm | hm | hm | hm
    all_goals subst hm
    all_goals exact ⟨by decide, by decide⟩
  · intro m d h
    refine ⟨fun b msd => gsmDecoders_modelLabel m d h b msd, ?_⟩
    rcases gsmDecoders_key m d h with hm | hm | hm | hm | hm | hm | hm | hm | hm
    all_goals subst hm
    all_goals exact ⟨by decide, by decide⟩

/-- Witness for C3: a direct decode of a Beacon MSD, a GSM record for Care
Sensor 1, and both label tables at their first keys. -/
theorem claim_C3_witness :
    Except.map Msd.model (decodeMsd [0, 0x80] none) = Except.ok (some 0x80)
    ∧ Option.map (fun r => Msd.model (GsmReport.msd r))
        (decodeGsmDataRecord 0 0 (0 :: 0x91 :: List.replicate 30 0)) = some (some 0x91)
    ∧ (msdDecodeBeacon [0, 0x80] Msd.empty).modelLabel = msdModelLabel 0x80
    ∧ msdModelLabel 0x80 ≠ some ""
    ∧ (gsmDecodeCareSensor1 [] Msd.empty).modelLabel = gsmModelLabel 0x91
    ∧ gsmModelLabel 0x91 ≠ none := by
  refine ⟨?_, ?_, ?_, ?_, ?_, ?_⟩
  · cases h : decodeMsd [0, 0x80] none with
    | error e =>
      have h2 : decodeMsd [0, 0x80] none
          = Except.ok (msdDecodeBeacon [0, 0x80]
              { Msd.empty with
                type := some eirManufacturerSpecificData
                typeLabel := some "ManufacturerSpecificData"
                companyIdentifier := some (readUInt16LE [0, 0x80] 0) }) := rfl
      rw [h] at h2
      exact Except.noConfusion h2
    | ok out =>
      have hm := claim_C3_model_roundtrip.1 [0, 0x80] none out h
      show Except.ok (Msd.model out) = Except.ok (some 0x80)
      rw [hm]
      rfl
  · cases h : decodeGsmDataRecord 0 0 (0 :: 0x91 :: List.replicate 30 0) with
    | none =>
      have h2 : (decodeGsmDataRecord 0 0 (0 :: 0x91 :: List.replicate 30 0)).isSome = true := by
        rfl
      rw [h] at h2
      exact Bool.noConfusion h2
    | some report =>
      have hm := claim_C3_model_roundtrip.2.1 0 0 (0 :: 0x91 :: List.replicate 30 0) report h
      show some (Msd.model (GsmReport.msd report)) = some (some 0x91)
      rw [hm]
      rfl
  · exact (claim_C3_model_roundtrip.2.2.1 0x80 msdDecodeBeacon rfl).1 [0, 0x80] Msd.empty
  · exact (claim_C3_model_roundtrip.2.2.1 0x80 msdDecodeBeacon rfl).2.2
  · exact (claim_C3_model_roundtrip.2.2.2 0x91 gsmDecodeCareSensor1 rfl).1 [] Msd.empty
  · exact (claim_C3_model_roundtrip.2.2.2 0x91 gsmDecodeCareSensor1 rfl).2.1

/-- Claim C4: the synthesized MAC address string takes the bytes at indices
7 down to 2 in descending index order, renders each as exactly two
zero-padded uppercase hexadecimal digits, and joins them with colons; on
bytes 0x01..0x06 at indices 2..7 it yields 06:05:04:03:02:01. -/
theorem claim_C4_mac_synthesis :
    (∀ buffer : Buffer, (∀ i ∈ ([2, 3, 4, 5, 6, 7] : List Nat), buffer.getD i 0 < 256) →
      decodeGsmMacAddress buffer
        = String.intercalate ":" ([7, 6, 5, 4, 3, 2].map fun i => twoHexUpper (buffer.getD i 0)))
    ∧ decodeGsmMacAddress [0, 0, 0x01, 0x02, 0x03, 0x04, 0x05, 0x06] = "06:05:04:03:02:01" := by
  constructor
  · intro buffer h
    unfold decodeGsmMacAddress
    simp only [List.map]
    rw [jsByteHexUpper_eq_twoHexUpper _ (h 7 (by norm_num)),
      jsByteHexUpper_eq_twoHexUpper _ (h 6 (by norm_num)),
      jsByteHexUpper_eq_twoHexUpper _ (h 5 (by norm_num)),
      jsByteHexUpper_eq_twoHexUpper _ (h 4 (by norm_num)),
      jsByteHexUpper_eq_twoHexUpper _ (h 3 (by norm_num)),
      jsByteHexUpper_eq_twoHexUpper _ (h 2 (by norm_num))]
  · rfl

/-- Witness for C4 on a buffer mixing padded, unpadded and extreme bytes. -/
theorem claim_C4_witness :
    decodeGsmMacAddress [0, 0, 0xAB, 0x0F, 0x10, 0xFF, 0, 1]
      = String.intercalate ":" ([7, 6, 5, 4, 3, 2].map fun i =>
          twoHexUpper (([0, 0, 0xAB, 0x0F, 0x10, 0xFF, 0, 1] : Buffer).getD i 0)) :=
  claim_C4_mac_synthesis.1 [0, 0, 0xAB, 0x0F, 0x10, 0xFF, 0, 1] (by decide)

/-- Claim C5: with c the 4-bit code extracted from the little-endian word
as (word >>> shift) &&& 0x0F, decodeBatteryLevel stores level 100 when
c = 1 and 10 * (min c 11 - 1) otherwise (covering c in 0, 2..11 and above),
the level is monotonically non-decreasing in c away from the c = 1 special
case, and the voltage always equals (level - 10) * 1.2 / 100 + 1.8. -/
theorem claim_C5_battery_level :
    ∀ (buffer : Buffer) (i shift : Nat) (msd : Msd),
      (decodeBatteryLevel buffer i shift msd).batteryLevel
          = some (batteryLevelOfCode ((readUInt16LE buffer i >>> shift) &&& 0x0F))
      ∧ ((readUInt16LE buffer i >>> shift) &&& 0x0F = 1 →
          batteryLevelOfCode ((readUInt16LE buffer i >>> shift) &&& 0x0F) = 100)
      ∧ ((readUInt16LE buffer i >>> shift) &&& 0x0F ≠ 1 →
          batteryLevelOfCode ((readUInt16LE buffer i >>> shift) &&& 0x0F)
            = 10 * (min (((readUInt16LE buffer i >>> shift) &&& 0x0F : Nat) : Int) 11 - 1))
      ∧ (∀ c1 c2 : Nat, c1 ≤ c2 → c1 ≠ 1 → c2 ≠ 1 →
          batteryLevelOfCode c1 ≤ batteryLevelOfCode c2)
      ∧ (decodeBatteryLevel buffer i shift msd).batteryVoltage
          = some (((batteryLevelOfCode ((readUInt16LE buffer i >>> shift) &&& 0x0F) : ℚ) - 10)
              * 1.2 / 100 + 1.8) := by
  intro buffer i shift msd
  refine ⟨rfl, ?_, ?_, ?_, rfl⟩
  · intro h
    simp [batteryLevelOfCode, h]
  · intro h
    simp [batteryLevelOfCode, h]
  · intro c1 c2 hle h1 h2
    simp only [batteryLevelOfCode, if_neg h1, if_neg h2]
    omega

/-- Witness for C5 at code 2 (level 10, voltage 1.8) and monotonicity at
codes 0 and 5. -/
theorem claim_C5_witness :
    (decodeBatteryLevel [2, 0] 0 0 Msd.empty).batteryLevel
        = some (batteryLevelOfCode ((readUInt16LE [2, 0] 0 >>> 0) &&& 0x0F))
    ∧ batteryLevelOfCode ((readUInt16LE [2, 0] 0 >>> 0) &&& 0x0F)
        = 10 * (min (((readUInt16LE [2, 0] 0 >>> 0) &&& 0x0F : Nat) : Int) 11 - 1)
    ∧ batteryLevelOfCode 0 ≤ batteryLevelOfCode 5 := by
  obtain ⟨h1, h2, h3, h4, h5⟩ := claim_C5_battery_level [2, 0] 0 0 Msd.empty
  exact ⟨h1, h3 (by decide), h4 0 5 (by norm_num) (by norm_num) (by norm_num)⟩

/-- Claim C6: decodeMotionSensor reads motion from bit 15, extracts the
three independent 5-bit fields at bit offsets 10, 5 and 0, and corrects
each by subtracting 0x1F (not 0x20) exactly when its bit 4 is set; the
field value 0x10 yields -15 and 0x0F yields 15 unchanged. -/
theorem claim_C6_motion_sign_correction :
    ∀ (buffer : Buffer) (i : Nat) (msd : Msd),
      (decodeMotionSensor buffer i msd).position = some
        { motion := (readUInt16LE buffer i).testBit 15
          x := signCorrect5 ((readUInt16LE buffer i >>> 10) &&& 0x1F)
          y := signCorrect5 ((readUInt16LE buffer i >>> 5) &&& 0x1F)
          z := signCorrect5 (readUInt16LE buffer i &&& 0x1F) }
      ∧ (∀ v : Nat, v &&& 0x10 ≠ 0 → signCorrect5 v = (v : Int) - 0x1F)
      ∧ (∀ v : Nat, v &&& 0x10 = 0 → signCorrect5 v = (v : Int))
      ∧ signCorrect5 0x10 = -15
      ∧ signCorrect5 0x0F = 15 := by
  intro buffer i msd
  refine ⟨?_, ?_, ?_, by decide, by decide⟩
  · simp only [decodeMotionSensor, decide_and_pow15]
  · intro v h
    simp [signCorrect5, h]
  · intro v h
    simp [signCorrect5, h]

/-- Witness for C6: bit 4 set at 0x12, clear at 3. -/
theorem claim_C6_witness :
    signCorrect5 0x12 = (0x12 : Int) - 0x1F ∧ signCorrect5 3 = (3 : Int) :=
  ⟨(claim_C6_motion_sign_correction [] 0 Msd.empty).2.1 0x12 (by decide),
    (claim_C6_motion_sign_correction [] 0 Msd.empty).2.2.1 3 (by decide)⟩

/-- Claim C7: each of the three temperature decoders stores exactly -30
when its pre-clamp value is below -30 and exactly 70 when it is above 70,
and the stored temperature always lies in the interval -30 to 70. -/
theorem claim_C7_temperature_clamps :
    ∀ (buffer : Buffer) (i : Nat) (msd : Msd),
      (csrPreClamp buffer i < -30 →
        (decodeCsrTemperature buffer i msd).temperature = some (-30))
      ∧ (70 < csrPreClamp buffer i →
          (decodeCsrTemperature buffer i msd).temperature = some 70)
      ∧ (∃ t, (decodeCsrTemperature buffer i msd).temperature = some t
          ∧ -30 ≤ t ∧ t ≤ 70)
      ∧ (mcp9844PreClamp buffer i < -30 →
          (decodeMcp9844Temperature buffer i msd).temperature = some (-30))
      ∧ (70 < mcp9844PreClamp buffer i →
          (decodeMcp9844Temperature buffer i msd).temperature = some 70)
      ∧ (∃ t, (decodeMcp9844Temperature buffer i msd).temperature = some t
          ∧ -30 ≤ t ∧ t ≤ 70)
      ∧ (si7021TemperaturePreClamp buffer i < -30 →
          (decodeSi7021Temperature buffer i msd).temperature = some (-30))
      ∧ (70 < si7021TemperaturePreClamp buffer i →
          (decodeSi7021Temperature buffer i msd).temperature = some 70)
      ∧ (∃ t, (decodeSi7021Temperature buffer i msd).temperature = some t
          ∧ -30 ≤ t ∧ t ≤ 70) := by
  intro buffer i msd
  refine ⟨?_, ?_, ?_, ?_, ?_, ?_, ?_, ?_, ?_⟩
  · intro h
    simp only [decodeCsrTemperature, if_pos h]
    norm_num
  · intro h
    simp only [decodeCsrTemperature, if_neg (by omega : ¬ csrPreClamp buffer i < -30),
      if_pos h]
    norm_num
  · refine ⟨_, rfl, ?_, ?_⟩ <;> split_ifs with h1 h2 <;> push_cast <;> try norm_num
    · exact_mod_cast (by omega : (-30 : Int) ≤ csrPreClamp buffer i)
    · exact_mod_cast (by omega : csrPreClamp buffer i ≤ 70)
  · intro h
    simp only [decodeMcp9844Temperature, if_pos h]
    norm_num [jsRound]
  · intro h
    simp only [decodeMcp9844Temperature,
      if_neg (by linarith : ¬ mcp9844PreClamp buffer i < -30), if_pos h]
    norm_num [jsRound]
  · have hcb : -30 ≤ (if mcp9844PreClamp buffer i < -30 then (-30 : ℚ)
          else if 70 < mcp9844PreClamp buffer i then 70 else mcp9844PreClamp buffer i)
        ∧ (if mcp9844PreClamp buffer i < -30 then (-30 : ℚ)
          else if 70 < mcp9844PreClamp buffer i then 70 else mcp9844PreClamp buffer i) ≤ 70 := by
      split_ifs <;> constructor <;> linarith
    have hb := jsRound_mul_div_bounds _ hcb.1 hcb.2
    exact ⟨_, rfl, hb.1, hb.2⟩
  · intro h
    simp only [decodeSi7021Temperature, if_pos h]
    norm_num [jsRound]
  · intro h
    simp only [decodeSi7021Temperature,
      if_neg (by linarith : ¬ si7021TemperaturePreClamp buffer i < -30), if_pos h]
    norm_num [jsRound]
  · have hcb : -30 ≤ (if si7021TemperaturePreClamp buffer i < -30 then (-30 : ℚ)
          else if 70 < si7021TemperaturePreClamp buffer i then 70
            else si7021TemperaturePreClamp buffer i)
        ∧ (if si7021TemperaturePreClamp buffer i < -30 then (-30 : ℚ)
          else if 70 < si7021TemperaturePreClamp buffer i then 70
            else si7021TemperaturePreClamp buffer i) ≤ 70 := by
      split_ifs <;> constructor <;> linarith
    have hb := jsRound_mul_div_bounds _ hcb.1 hcb.2
    exact ⟨_, rfl, hb.1, hb.2⟩

/-- Witness for C7: concrete raw readings below and above the clamp window
for each of the three encodings. -/
theorem claim_C7_witness :
    (decodeCsrTemperature [200, 0] 0 Msd.empty).temperature = some (-30)
    ∧ (decodeCsrTemperature [100, 0] 0 Msd.empty).temperature = some 70
    ∧ (decodeMcp9844Temperature [0, 0x10] 0 Msd.empty).temperature = some (-30)
    ∧ (decodeMcp9844Temperature [0, 0x05] 0 Msd.empty).temperature = some 70
    ∧ (decodeSi7021Temperature [0, 0] 0 Msd.empty).temperature = some (-30)
    ∧ (decodeSi7021Temperature [0xFF, 0xFF] 0 Msd.empty).temperature = some 70 := by
  refine ⟨?_, ?_, ?_, ?_, ?_, ?_⟩
  · exact (claim_C7_temperature_clamps [200, 0] 0 Msd.empty).1 (by decide)
  · exact (claim_C7_temperature_clamps [100, 0] 0 Msd.empty).2.1 (by decide)
  · exact (claim_C7_temperature_clamps [0, 0x10] 0 Msd.empty).2.2.2.1
      (by norm_num [mcp9844PreClamp, show (16 : Nat) &&& 15 = 0 from rfl,
        show (16 : Nat) &&& 16 = 16 from rfl])
  · exact (claim_C7_temperature_clamps [0, 0x05] 0 Msd.empty).2.2.2.2.1
      (by norm_num [mcp9844PreClamp, show (5 : Nat) &&& 15 = 5 from rfl,
        show (5 : Nat) &&& 16 = 0 from rfl])
  · exact (claim_C7_temperature_clamps [0, 0] 0 Msd.empty).2.2.2.2.2.2.1
      (by norm_num [si7021TemperaturePreClamp, readUInt16LE])
  · exact (claim_C7_temperature_clamps [0xFF, 0xFF] 0 Msd.empty).2.2.2.2.2.2.2.1
      (by norm_num [si7021TemperaturePreClamp, readUInt16LE])

/-- Claim C8: decodeEnergyMeter extracts unit as (options >>> 14) &&& 3 and
the raw constant field as options &&& 0x3FFF, keeping a nonzero constant
field unchanged; options 0x0000 yields unit 0, defaulted constant 1000 and
labels kWh / kW, while options 0xC001 falls to the else branch with labels
cnt / cnt and the constant left at 1. -/
theorem claim_C8_energy_meter_options :
    ∀ (buffer : Buffer) (i : Nat) (msd : Msd),
      (decodeEnergyMeter buffer i msd).unit
          = some ((readUInt16LE buffer (i + 6) >>> 14) &&& 3)
      ∧ (readUInt16LE buffer (i + 6) &&& 0x3FFF ≠ 0 →
          (decodeEnergyMeter buffer i msd).constant
            = some (readUInt16LE buffer (i + 6) &&& 0x3FFF))
      ∧ ((decodeEnergyMeter [0, 0, 0, 0, 0, 0, 0, 0] 0 Msd.empty).unit = some 0
          ∧ (decodeEnergyMeter [0, 0, 0, 0, 0, 0, 0, 0] 0 Msd.empty).constant = some 1000
          ∧ (decodeEnergyMeter [0, 0, 0, 0, 0, 0, 0, 0] 0 Msd.empty).averageUnit = some "kWh"
          ∧ (decodeEnergyMeter [0, 0, 0, 0, 0, 0, 0, 0] 0 Msd.empty).sumUnit = some "kW")
      ∧ ((decodeEnergyMeter [0, 0, 0, 0, 0, 0, 0x01, 0xC0] 0 Msd.empty).unit = some 3
          ∧ (decodeEnergyMeter [0, 0, 0, 0, 0, 0, 0x01, 0xC0] 0 Msd.empty).constant = some 1
          ∧ (decodeEnergyMeter [0, 0, 0, 0, 0, 0, 0x01, 0xC0] 0 Msd.empty).averageUnit
              = some "cnt"
          ∧ (decodeEnergyMeter [0, 0, 0, 0, 0, 0, 0x01, 0xC0] 0 Msd.empty).sumUnit
              = some "cnt") := by
  intro buffer i msd
  refine ⟨?_, ?_, ⟨rfl, rfl, rfl, rfl⟩, ⟨rfl, rfl, rfl, rfl⟩⟩
  · simp only [decodeEnergyMeter, decodeEnergyMeterExtra_unit]
  · intro h
    simp only [decodeEnergyMeter, decodeEnergyMeterExtra_constant, energyMeterBranch]
    split_ifs <;> simp_all

/-- Witness for C8: a nonzero constant field (options 0xC001) is kept. -/
theorem claim_C8_witness :
    (decodeEnergyMeter [0, 0, 0, 0, 0, 0, 0x01, 0xC0] 0 Msd.empty).constant
      = some (readUInt16LE [0, 0, 0, 0, 0, 0, 0x01, 0xC0] (0 + 6) &&& 0x3FFF) :=
  (claim_C8_energy_meter_options [0, 0, 0, 0, 0, 0, 0x01, 0xC0] 0 Msd.empty).2.1 (by decide)

end INode
